import Mathlib

/-!
Shallow embedding of the orchestration core of `src/src/App.jsx`
(operator console for the vendor-email agent backend).

The React component is modelled as a pure state-transition system:
* `AppState` mirrors the `useState` fields of the component.
* `Backend` is an oracle giving, for each endpoint, the outcome of the
  single `api` call an operation issues to it (`Except String β`, the
  error string being the thrown `Error`'s message).
* Each handler (`refreshAll`, `pollGmail`, `loadAgentStatus`,
  `handleSeed`, `handleIngest`, `runOnce`, `runLoop`) is a function
  `Backend → AppState → AppState × List Request`, where the request
  trace records every HTTP call the operation issues, in issue order.
* The auto-run `useEffect` and timer are modelled separately as a small
  transition system (`TimerState`, `AutoState`).
-/

/-- The `AgentConfig` snapshot: which backend subsystems are mock vs live. -/
structure AgentConfig where
  gmail_mode : String
  gemini_mode : String
deriving DecidableEq

/-- The `AgentStatus` counter snapshot from `GET /agent/status`. -/
structure AgentStatus where
  pending : Nat
  in_process : Nat
  responded : Nat
  escalated : Nat
deriving DecidableEq

/-- One inbound message in the polled mailbox view (`GET /gmail/poll` item).
The JS field `from` is a Lean keyword, hence `from_`. -/
structure QueueItem where
  messageId : Option String
  threadId : Option String
  from_ : String
  subject : String
  snippet : String
deriving DecidableEq

/-- Nested `entities` object of a log entry. -/
structure LogEntities where
  request_id : Option String
deriving DecidableEq

/-- One completed interaction from `GET /logs`. The JS field `_id` is
written `idStr` here. -/
structure LogEntry where
  idStr : String
  from_email : String
  subject : String
  intent : Option String
  entities : Option LogEntities
  resolution_type : Option String
  labels : List String
deriving DecidableEq

/-- Aggregate counters from `GET /analytics/summary`. -/
structure AnalyticsSummary where
  total : Nat
  auto_resolved : Nat
  info_request : Nat
  escalated : Nat
  by_intent : List (String × Nat)
deriving DecidableEq

/-- The locally edited ingest form (`form` state). -/
structure IngestDraft where
  from_email : String
  subject : String
  body : String
deriving DecidableEq

/-- Response body of `GET /gmail/poll`: `{ items: ... }`, where `items`
may be absent or null (`none`). -/
structure GmailPollResult where
  items : Option (List QueueItem)
deriving DecidableEq

/-- Response body of `POST /agent/run-once`: `{ processed: bool }`. -/
structure RunOnceResult where
  processed : Bool
deriving DecidableEq

/-- Response body of `POST /agent/run-loop`: `{ processed: int }`. -/
structure RunLoopResult where
  processed : Nat
deriving DecidableEq

/-- The component's `useState` fields relevant to orchestration. -/
structure AppState where
  loading : Bool
  seeded : Bool
  logs : List LogEntry
  analytics : Option AnalyticsSummary
  statusMsg : String
  agentConfig : Option AgentConfig
  agentStatus : Option AgentStatus
  gmailQueue : List QueueItem
  form : IngestDraft
deriving DecidableEq

/-- One HTTP request issued through `api`, tagged by endpoint (and body
for the mutating calls that carry one). -/
inductive Request where
  | getAnalytics
  | getLogs
  | getAgentConfig
  | getAgentStatus
  | getGmailPoll
  | postSeed
  | postIngest (draft : IngestDraft)
  | postRunOnce
  | postRunLoop (max_steps : Nat)
deriving DecidableEq

/-- Is the request a mutating (POST) call? -/
def Request.isPost : Request → Bool
  | .postSeed => true
  | .postIngest _ => true
  | .postRunOnce => true
  | .postRunLoop _ => true
  | _ => false

/-- Is the request a call to the bounded run-loop endpoint? -/
def Request.isRunLoop : Request → Bool
  | .postRunLoop _ => true
  | _ => false

/-- Backend oracle: for each endpoint, the outcome the single `api` call
of an operation observes. `Except.error e` models `api` throwing an
`Error` whose `message` is `e`. -/
structure Backend where
  analyticsSummary : Except String AnalyticsSummary
  logsResp : Except String (List LogEntry)
  agentConfigResp : Except String AgentConfig
  agentStatusResp : Except String AgentStatus
  gmailPoll : Except String GmailPollResult
  seedVendors : Except String Unit
  ingestMockEmail : Except String Unit
  runOnceResp : Except String RunOnceResult
  runLoopResp : Except String RunLoopResult

/-! ## Transport Client (`api`) -/

/-- A raw HTTP response as seen by `api`, with an already-parsed body. -/
structure HttpResponse (α : Type) where
  status : Nat
  statusText : String
  body : α

/-- Model of `res.ok`: the status is in the success range [200, 300). -/
def HttpResponse.ok (r : HttpResponse α) : Bool :=
  decide (200 ≤ r.status) && decide (r.status < 300)

/-- The `api` helper of `App.jsx`:
`if (!res.ok) throw new Error(res.status + " " + res.statusText); return res.json()`. -/
def api (r : HttpResponse α) : Except String α :=
  if r.ok then Except.ok r.body
  else Except.error (toString r.status ++ " " ++ r.statusText)

/-! ## Read-refresh operations -/

/-- Model of `refreshAll`: fetches `/analytics/summary` (`.catch(() => null)`) and
`/logs` (`.catch(() => [])`) via `Promise.all`; `if (an) setAnalytics(an)`
keeps analytics unchanged on failure, while `if (ls) setLogs(ls)` always
fires because an array (even `[]`) is truthy in JS. -/
def refreshAll (b : Backend) (s : AppState) : AppState × List Request :=
  let an : Option AnalyticsSummary :=
    match b.analyticsSummary with
    | .ok a => some a
    | .error _ => none
  let ls : List LogEntry :=
    match b.logsResp with
    | .ok l => l
    | .error _ => []
  let s := { s with loading := true }
  let s := match an with
    | some a => { s with analytics := some a }
    | none => s
  let s := { s with logs := ls }
  ({ s with loading := false }, [Request.getAnalytics, Request.getLogs])

/-- Model of `loadAgentMeta`: startup fetch of config and status, each failure
swallowed (`.catch(() => null)`, `if (cfg) ...`, `if (st) ...`). -/
def loadAgentMeta (b : Backend) (s : AppState) : AppState × List Request :=
  let s := match b.agentConfigResp with
    | .ok cfg => { s with agentConfig := some cfg }
    | .error _ => s
  let s := match b.agentStatusResp with
    | .ok st => { s with agentStatus := some st }
    | .error _ => s
  (s, [Request.getAgentConfig, Request.getAgentStatus])

/-- Model of `loadAgentStatus`: refreshes the status counters; a failure is caught
and ignored, leaving the prior snapshot. -/
def loadAgentStatus (b : Backend) (s : AppState) : AppState × List Request :=
  match b.agentStatusResp with
  | .ok st => ({ s with agentStatus := some st }, [Request.getAgentStatus])
  | .error _ => (s, [Request.getAgentStatus])

/-- Model of `pollGmail`: on success stores `res.items || []`; on failure stores
`[]` (the catch branch), never propagating the error. -/
def pollGmail (b : Backend) (s : AppState) : AppState × List Request :=
  match b.gmailPoll with
  | .ok r => ({ s with gmailQueue := r.items.getD [] }, [Request.getGmailPoll])
  | .error _ => ({ s with gmailQueue := [] }, [Request.getGmailPoll])

/-! ## Mutating operations -/

/-- Model of `handleSeed`: POST `/seed/vendors` with body `[]`; on success sets
`seeded`, a success message, then `refreshAll` and `loadAgentStatus`
(no queue poll); on failure only sets the failure message. -/
def handleSeed (b : Backend) (s : AppState) : AppState × List Request :=
  let s := { s with statusMsg := "Seeding sample vendor requests..." }
  match b.seedVendors with
  | .ok _ =>
    let s1 := { s with seeded := true, statusMsg := "Seeded sample vendor requests." }
    let s2 := (refreshAll b s1).1
    let s3 := (loadAgentStatus b s2).1
    (s3, Request.postSeed :: ((refreshAll b s1).2 ++ (loadAgentStatus b s2).2))
  | .error e =>
    ({ s with statusMsg := "Failed to seed: " ++ e }, [Request.postSeed])

/-- Model of `handleIngest`: POST `/ingest/mock-email` with the form draft; on
success sets a message then `refreshAll`, `pollGmail`, `loadAgentStatus`;
on failure only sets the failure message. -/
def handleIngest (b : Backend) (s : AppState) : AppState × List Request :=
  let s := { s with statusMsg := "Ingesting mock email..." }
  match b.ingestMockEmail with
  | .ok _ =>
    let s1 := { s with statusMsg := "Email ingested. You can now Process Next." }
    let s2 := (refreshAll b s1).1
    let s3 := (pollGmail b s2).1
    let s4 := (loadAgentStatus b s3).1
    (s4, Request.postIngest s.form ::
      ((refreshAll b s1).2 ++ (pollGmail b s2).2 ++ (loadAgentStatus b s3).2))
  | .error e =>
    ({ s with statusMsg := "Failed to ingest: " ++ e }, [Request.postIngest s.form])

/-- Model of `runOnce(showMsg)`: POST `/agent/run-once`; branches the status
message on `res.processed`, then `refreshAll`, `pollGmail`,
`loadAgentStatus`; on failure only sets the failure message. -/
def runOnce (b : Backend) (showMsg : Bool) (s : AppState) : AppState × List Request :=
  let s := if showMsg then { s with statusMsg := "Processing next email..." } else s
  match b.runOnceResp with
  | .ok r =>
    let s1 :=
      if r.processed then { s with statusMsg := "Processed one email and replied (mock)." }
      else { s with statusMsg := "No emails pending." }
    let s2 := (refreshAll b s1).1
    let s3 := (pollGmail b s2).1
    let s4 := (loadAgentStatus b s3).1
    (s4, Request.postRunOnce ::
      ((refreshAll b s1).2 ++ (pollGmail b s2).2 ++ (loadAgentStatus b s3).2))
  | .error e =>
    ({ s with statusMsg := "Process failed: " ++ e }, [Request.postRunOnce])

/-- Model of `runLoop(steps)`: POST `/agent/run-loop` with `{max_steps: steps}`;
on success reports `res.processed` in the status message, then
`refreshAll`, `pollGmail`, `loadAgentStatus`; on failure only sets the
failure message. -/
def runLoop (b : Backend) (steps : Nat) (s : AppState) : AppState × List Request :=
  let s := { s with statusMsg := "Running loop for up to " ++ toString steps ++ " steps..." }
  match b.runLoopResp with
  | .ok r =>
    let s1 := { s with statusMsg := "Loop done. Processed " ++ toString r.processed ++ " messages." }
    let s2 := (refreshAll b s1).1
    let s3 := (pollGmail b s2).1
    let s4 := (loadAgentStatus b s3).1
    (s4, Request.postRunLoop steps ::
      ((refreshAll b s1).2 ++ (pollGmail b s2).2 ++ (loadAgentStatus b s3).2))
  | .error e =>
    ({ s with statusMsg := "Run-loop failed: " ++ e }, [Request.postRunLoop steps])

/-! ## Timer / auto-run model

The `useEffect([autoRun])` hook arms or disarms the 3000 ms interval.
`intervalRef` mirrors `intervalRef.current`; `armed` is the set (as a
list) of interval registrations currently live in the host environment;
`nextId` generates fresh handles. -/

structure TimerState where
  autoRun : Bool
  intervalRef : Option Nat
  armed : List Nat
  nextId : Nat
deriving DecidableEq

/-- Model of `if (intervalRef.current) clearInterval(intervalRef.current)`. -/
def clearCurrent (t : TimerState) : TimerState :=
  match t.intervalRef with
  | some h => { t with armed := t.armed.filter (fun x => x ≠ h) }
  | none => t

/-- Body of the `useEffect` that reacts to `autoRun`: when enabled, clear
any existing interval then arm a fresh one; when disabled, clear and null
the ref. -/
def autoRunEffect (t : TimerState) : TimerState :=
  if t.autoRun then
    let t := clearCurrent t
    { t with intervalRef := some t.nextId, armed := t.nextId :: t.armed,
             nextId := t.nextId + 1 }
  else
    let t := clearCurrent t
    { t with intervalRef := none }

/-- Model of `setAutoRun(b)` followed by the effect run React triggers on the
change. -/
def setAutoRun (b : Bool) (t : TimerState) : TimerState :=
  autoRunEffect { t with autoRun := b }

/-- Initial orchestration state: `autoRun = false`, no interval. -/
def initTimer : TimerState :=
  { autoRun := false, intervalRef := none, armed := [], nextId := 0 }

/-- Timer states reachable by toggling `autoRun` from the initial state. -/
inductive TimerReachable : TimerState → Prop where
  | init : TimerReachable initTimer
  | step (b : Bool) {t : TimerState} : TimerReachable t → TimerReachable (setAutoRun b t)

/-- Executable invariant: the ref mirrors `autoRun`, and the armed
registrations are exactly the ref's content. -/
def TimerInv (t : TimerState) : Prop :=
  match t.intervalRef with
  | some h => t.autoRun = true ∧ t.armed = [h]
  | none => t.autoRun = false ∧ t.armed = []

instance (t : TimerState) : Decidable (TimerInv t) := by
  unfold TimerInv
  cases t.intervalRef <;> exact inferInstance

/-! ### Auto-cycle event system (for the cancellation claim) -/

/-- Events observable around the auto cycle: toggling auto-run, the
interval firing (starting a tick), and one awaited phase of an in-flight
tick completing. -/
inductive Ev where
  | setAuto (b : Bool)
  | tickFire
  | tickStep
deriving DecidableEq

/-- Number of awaited phases of one tick:
`runOnce`, `pollGmail`, `refreshAll`, `loadAgentStatus`. -/
def tickLen : Nat := 4

/-- Orchestration state with a possibly in-flight tick (`some n` means
`n` phases of the tick remain). -/
structure AutoState where
  timer : TimerState
  inFlight : Option Nat
deriving DecidableEq

/-- Small-step semantics: an interval can fire only while a registration
is armed; an in-flight tick advances regardless of the timer (clearing
the interval never aborts an already-running callback). -/
def stepAuto : Ev → AutoState → Option AutoState
  | .setAuto b, s => some { s with timer := setAutoRun b s.timer }
  | .tickFire, s =>
      if s.timer.armed = [] then none
      else some { s with inFlight := some tickLen }
  | .tickStep, s =>
      match s.inFlight with
      | some (n + 1) => some { s with inFlight := if n = 0 then none else some n }
      | _ => none

/-- Trace relation: `AutoTrace s es s1` says the event list `es` is a valid run from `s`
to `s'`. -/
inductive AutoTrace : AutoState → List Ev → AutoState → Prop where
  | nil (s : AutoState) : AutoTrace s [] s
  | cons {s s1 s2 : AutoState} {e : Ev} {es : List Ev} :
      stepAuto e s = some s1 → AutoTrace s1 es s2 → AutoTrace s (e :: es) s2

/-! ## Sample data for concrete runs -/

/-- The default value of the `form` state in `App.jsx`. -/
def defaultDraft : IngestDraft :=
  { from_email := "vendor@example.com"
    subject := "What is the status of VR-2025-0012?"
    body := "Hi team, could you confirm the status of my vendor registration VR-2025-0012? Thanks." }

/-- Initial component state (the `useState` initial values). -/
def s0 : AppState :=
  { loading := false, seeded := false, logs := [], analytics := none,
    statusMsg := "", agentConfig := none, agentStatus := none,
    gmailQueue := [], form := defaultDraft }

/-- A concrete log entry, used to exhibit refresh behaviour. -/
def sampleLog : LogEntry :=
  { idStr := "L1", from_email := "vendor@example.com",
    subject := "What is the status of VR-2025-0012?",
    intent := some "status", entities := some { request_id := some "VR-2025-0012" },
    resolution_type := some "auto_resolved", labels := ["VM-QUERIES"] }

/-- A concrete analytics snapshot. -/
def sampleAnalytics : AnalyticsSummary :=
  { total := 3, auto_resolved := 2, info_request := 1, escalated := 0,
    by_intent := [("status", 2), ("docs", 1)] }

/-- A concrete status snapshot. -/
def sampleStatus : AgentStatus :=
  { pending := 1, in_process := 0, responded := 2, escalated := 0 }

/-- A concrete queue item. -/
def sampleItem : QueueItem :=
  { messageId := some "m1", threadId := some "t1",
    from_ := "vendor@example.com",
    subject := "What is the status of VR-2025-0012?",
    snippet := "Hi team, could you confirm..." }

/-- A backend on which every endpoint succeeds. -/
def okBackend : Backend :=
  { analyticsSummary := .ok sampleAnalytics
    logsResp := .ok [sampleLog]
    agentConfigResp := .ok { gmail_mode := "mock", gemini_mode := "mock" }
    agentStatusResp := .ok sampleStatus
    gmailPoll := .ok { items := some [sampleItem] }
    seedVendors := .ok ()
    ingestMockEmail := .ok ()
    runOnceResp := .ok { processed := true }
    runLoopResp := .ok { processed := 3 } }

/-- A backend on which every endpoint fails with the message a
`500 Internal Server Error` response produces in `api`. -/
def failBackend : Backend :=
  { analyticsSummary := .error "500 Internal Server Error"
    logsResp := .error "500 Internal Server Error"
    agentConfigResp := .error "500 Internal Server Error"
    agentStatusResp := .error "500 Internal Server Error"
    gmailPoll := .error "500 Internal Server Error"
    seedVendors := .error "500 Internal Server Error"
    ingestMockEmail := .error "500 Internal Server Error"
    runOnceResp := .error "500 Internal Server Error"
    runLoopResp := .error "500 Internal Server Error" }

/-- A backend where only the logs fetch fails. -/
def logsFailBackend : Backend :=
  { okBackend with logsResp := .error "503 Service Unavailable" }

/-! ## Helper lemmas about the refresh steps -/

theorem refreshAll_requests (b : Backend) (s : AppState) :
    (refreshAll b s).2 = [Request.getAnalytics, Request.getLogs] := rfl

theorem pollGmail_requests (b : Backend) (s : AppState) :
    (pollGmail b s).2 = [Request.getGmailPoll] := by
  unfold pollGmail; cases b.gmailPoll <;> rfl

theorem loadAgentStatus_requests (b : Backend) (s : AppState) :
    (loadAgentStatus b s).2 = [Request.getAgentStatus] := by
  unfold loadAgentStatus; cases b.agentStatusResp <;> rfl

theorem refreshAll_statusMsg (b : Backend) (s : AppState) :
    (refreshAll b s).1.statusMsg = s.statusMsg := by
  unfold refreshAll; cases b.analyticsSummary <;> rfl

theorem pollGmail_statusMsg (b : Backend) (s : AppState) :
    (pollGmail b s).1.statusMsg = s.statusMsg := by
  unfold pollGmail; cases b.gmailPoll <;> rfl

theorem loadAgentStatus_statusMsg (b : Backend) (s : AppState) :
    (loadAgentStatus b s).1.statusMsg = s.statusMsg := by
  unfold loadAgentStatus; cases b.agentStatusResp <;> rfl

/-- A backend where only the gmail poll fails. -/
def pollFailBackend : Backend :=
  { okBackend with gmailPoll := .error "502 Bad Gateway" }

/-- A backend whose run-once call reports nothing pending. -/
def nothingPendingBackend : Backend :=
  { okBackend with runOnceResp := .ok { processed := false } }

/-- Initial state with one prior log entry, to observe refresh effects. -/
def s0logs : AppState := { s0 with logs := [sampleLog] }

/-! ## Claim theorems -/

/-- C8: a Transport Client request with a status outside the success
range fails with an error whose description carries the numeric status
code and the status text, and the parsed body is returned only when the
response is successful. -/
theorem c8_transport (α : Type) (r : HttpResponse α) :
    (¬ (200 ≤ r.status ∧ r.status < 300) →
      api r = Except.error (toString r.status ++ " " ++ r.statusText)) ∧
    (∀ v, api r = Except.ok v → (200 ≤ r.status ∧ r.status < 300) ∧ v = r.body) := by
  have hok : r.ok = true ↔ (200 ≤ r.status ∧ r.status < 300) := by
    simp [HttpResponse.ok]
  constructor
  · intro h
    have hfalse : r.ok = false := by
      rcases Bool.eq_false_or_eq_true r.ok with hf | ht
      · exact absurd (hok.mp hf) h
      · exact ht
    simp [api, hfalse]
  · intro v hv
    rcases Bool.eq_false_or_eq_true r.ok with ht | hf
    · refine ⟨hok.mp ht, ?_⟩
      simp [api, ht] at hv
      exact hv.symm
    · simp [api, hf] at hv

/-- Witness for C8 at a concrete 404 response. -/
theorem c8_transport_witness :
    api { status := 404, statusText := "Not Found", body := (0 : Nat) } =
      Except.error "404 Not Found" := by
  have h := (c8_transport Nat
    { status := 404, statusText := "Not Found", body := (0 : Nat) }).1 (by decide)
  rw [h]
  rfl

/-- C10: a successful queue poll stores the response's `items` sequence,
and stores the empty sequence when `items` is absent/null. -/
theorem c10_pollGmail_items (b : Backend) (s : AppState) (r : GmailPollResult)
    (h : b.gmailPoll = .ok r) :
    (r.items = none → (pollGmail b s).1.gmailQueue = []) ∧
    (∀ l, r.items = some l → (pollGmail b s).1.gmailQueue = l) := by
  constructor
  · intro hi; simp [pollGmail, h, hi]
  · intro l hi; simp [pollGmail, h, hi]

/-- Witness for C10: the sample backend's items land in the queue, and a
response without items yields the empty queue. -/
theorem c10_pollGmail_items_witness :
    (pollGmail okBackend s0).1.gmailQueue = [sampleItem] ∧
    (pollGmail { okBackend with gmailPoll := .ok { items := none } } s0).1.gmailQueue = [] :=
  ⟨(c10_pollGmail_items okBackend s0 { items := some [sampleItem] } rfl).2 [sampleItem] rfl,
   (c10_pollGmail_items { okBackend with gmailPoll := .ok { items := none } } s0
      { items := none } rfl).1 rfl⟩

/-- C7: a failed queue poll is never propagated — it stores the empty
queue, touches nothing else, and a subsequent status refresh (here: the
full post-run-once refresh sequence) still runs. -/
theorem c7_pollGmail_failure (b : Backend) (s : AppState) (e : String)
    (h : b.gmailPoll = .error e) :
    (pollGmail b s).1 = { s with gmailQueue := [] } ∧
    (∀ r, b.runOnceResp = .ok r →
      (runOnce b true s).2 =
        [Request.postRunOnce, Request.getAnalytics, Request.getLogs,
         Request.getGmailPoll, Request.getAgentStatus]) := by
  constructor
  · simp [pollGmail, h]
  · intro r hr
    simp [runOnce, hr, refreshAll_requests, pollGmail_requests, loadAgentStatus_requests]

/-- Witness for C7 with a failing poll backend. -/
theorem c7_pollGmail_failure_witness :
    (pollGmail pollFailBackend s0).1 = { s0 with gmailQueue := [] } ∧
    (runOnce pollFailBackend true s0).2 =
      [Request.postRunOnce, Request.getAnalytics, Request.getLogs,
       Request.getGmailPoll, Request.getAgentStatus] :=
  ⟨(c7_pollGmail_failure pollFailBackend s0 "502 Bad Gateway" rfl).1,
   (c7_pollGmail_failure pollFailBackend s0 "502 Bad Gateway" rfl).2
     { processed := true } rfl⟩

/-- C5: on a successful run-once call the status message is the success
phrase when `processed = true` and exactly "No emails pending." when
`processed = false`, and the operation issues exactly one POST (the
run-once call itself) — everything after it is read-only. -/
theorem c5_runOnce_processed (b : Backend) (s : AppState) (m : Bool)
    (r : RunOnceResult) (h : b.runOnceResp = .ok r) :
    (r.processed = true →
      (runOnce b m s).1.statusMsg = "Processed one email and replied (mock).") ∧
    (r.processed = false →
      (runOnce b m s).1.statusMsg = "No emails pending.") ∧
    (runOnce b m s).2.filter Request.isPost = [Request.postRunOnce] := by
  refine ⟨?_, ?_, ?_⟩
  · intro hp
    simp [runOnce, h, hp, loadAgentStatus_statusMsg, pollGmail_statusMsg,
      refreshAll_statusMsg]
  · intro hp
    simp [runOnce, h, hp, loadAgentStatus_statusMsg, pollGmail_statusMsg,
      refreshAll_statusMsg]
  · simp [runOnce, h, refreshAll_requests, pollGmail_requests,
      loadAgentStatus_requests, Request.isPost]

/-- Witness for C5 on a backend reporting nothing pending. -/
theorem c5_runOnce_processed_witness :
    (runOnce nothingPendingBackend true s0).1.statusMsg = "No emails pending." ∧
    (runOnce nothingPendingBackend true s0).2.filter Request.isPost =
      [Request.postRunOnce] :=
  ⟨(c5_runOnce_processed nothingPendingBackend s0 true { processed := false } rfl).2.1 rfl,
   (c5_runOnce_processed nothingPendingBackend s0 true { processed := false } rfl).2.2⟩

/-- C6: a successful bounded run with bound `n > 0` issues exactly one
request to the run-loop endpoint, carrying `max_steps = n`, and the
status message reports exactly the backend's `processed` count. -/
theorem c6_runLoop_bounded (b : Backend) (s : AppState) (n : Nat) (_hn : 0 < n)
    (r : RunLoopResult) (h : b.runLoopResp = .ok r) :
    (runLoop b n s).2.filter Request.isRunLoop = [Request.postRunLoop n] ∧
    (runLoop b n s).1.statusMsg =
      "Loop done. Processed " ++ toString r.processed ++ " messages." := by
  constructor
  · simp [runLoop, h, refreshAll_requests, pollGmail_requests,
      loadAgentStatus_requests, Request.isRunLoop]
  · simp [runLoop, h, loadAgentStatus_statusMsg, pollGmail_statusMsg,
      refreshAll_statusMsg]

/-- Witness for C6 at bound 10 with the sample backend (3 processed). -/
theorem c6_runLoop_bounded_witness :
    (runLoop okBackend 10 s0).2.filter Request.isRunLoop = [Request.postRunLoop 10] ∧
    (runLoop okBackend 10 s0).1.statusMsg = "Loop done. Processed 3 messages." := by
  have h := c6_runLoop_bounded okBackend s0 10 (by decide) { processed := 3 } rfl
  exact ⟨h.1, by rw [h.2]; rfl⟩

/-- C1 counterexample: on a backend where the seed POST fails, the
failure message is set, but the operation issues no refresh call at all
(the refresh sequence sits inside the `try` block), so the claim that
the refresh sequence still runs is false. -/
theorem c1_counterexample :
    (handleSeed failBackend s0).1.statusMsg =
      "Failed to seed: 500 Internal Server Error" ∧
    (handleSeed failBackend s0).2 = [Request.postSeed] ∧
    Request.getAgentStatus ∉ (handleSeed failBackend s0).2 ∧
    Request.getAnalytics ∉ (handleSeed failBackend s0).2 := by
  refine ⟨rfl, rfl, ?_, ?_⟩ <;> decide

/-- C1 amended: when the primary Transport call of a mutating operation
fails, the operation sets a status message containing the failure's
textual description, but performs none of the refresh sequence — the
only request issued is the failed primary POST itself. -/
theorem c1_failure_no_refresh (b : Backend) (s : AppState)
    (e1 e2 e3 e4 : String) (n : Nat)
    (h1 : b.seedVendors = .error e1)
    (h2 : b.ingestMockEmail = .error e2)
    (h3 : b.runOnceResp = .error e3)
    (h4 : b.runLoopResp = .error e4) :
    ((handleSeed b s).1.statusMsg = "Failed to seed: " ++ e1 ∧
      (handleSeed b s).2 = [Request.postSeed]) ∧
    ((handleIngest b s).1.statusMsg = "Failed to ingest: " ++ e2 ∧
      (handleIngest b s).2 = [Request.postIngest s.form]) ∧
    ((runOnce b true s).1.statusMsg = "Process failed: " ++ e3 ∧
      (runOnce b true s).2 = [Request.postRunOnce]) ∧
    ((runLoop b n s).1.statusMsg = "Run-loop failed: " ++ e4 ∧
      (runLoop b n s).2 = [Request.postRunLoop n]) := by
  refine ⟨⟨?_, ?_⟩, ⟨?_, ?_⟩, ⟨?_, ?_⟩, ⟨?_, ?_⟩⟩ <;>
    simp [handleSeed, handleIngest, runOnce, runLoop, h1, h2, h3, h4]

/-- Witness for the amended C1 on the all-failing backend. -/
theorem c1_failure_no_refresh_witness :
    ((handleSeed failBackend s0).1.statusMsg =
        "Failed to seed: " ++ "500 Internal Server Error" ∧
      (handleSeed failBackend s0).2 = [Request.postSeed]) ∧
    ((handleIngest failBackend s0).1.statusMsg =
        "Failed to ingest: " ++ "500 Internal Server Error" ∧
      (handleIngest failBackend s0).2 = [Request.postIngest s0.form]) ∧
    ((runOnce failBackend true s0).1.statusMsg =
        "Process failed: " ++ "500 Internal Server Error" ∧
      (runOnce failBackend true s0).2 = [Request.postRunOnce]) ∧
    ((runLoop failBackend 10 s0).1.statusMsg =
        "Run-loop failed: " ++ "500 Internal Server Error" ∧
      (runLoop failBackend 10 s0).2 = [Request.postRunLoop 10]) :=
  c1_failure_no_refresh failBackend s0 _ _ _ _ 10 rfl rfl rfl rfl

/-- C2 counterexample: with one prior log entry stored and a failing
logs fetch, `refreshAll` replaces the stored log list with the empty
list (the `catch(() => [])` result is truthy in JS), so "left unchanged"
is false for logs. -/
theorem c2_counterexample :
    logsFailBackend.logsResp = Except.error "503 Service Unavailable" ∧
    s0logs.logs = [sampleLog] ∧
    (refreshAll logsFailBackend s0logs).1.logs = [] ∧
    (refreshAll logsFailBackend s0logs).1.logs ≠ s0logs.logs := by
  refine ⟨rfl, rfl, rfl, ?_⟩
  decide

/-- C2 amended: a failed analytics fetch leaves the analytics summary
unchanged, a failed logs fetch replaces the stored log list with the
empty list, and either fetch's outcome never affects the other entity's
update. -/
theorem c2_refreshAll_independent (b : Backend) (s : AppState) :
    (∀ e, b.analyticsSummary = Except.error e →
      (refreshAll b s).1.analytics = s.analytics) ∧
    (∀ e, b.logsResp = Except.error e → (refreshAll b s).1.logs = []) ∧
    (∀ a, b.analyticsSummary = Except.ok a →
      (refreshAll b s).1.analytics = some a) ∧
    (∀ l, b.logsResp = Except.ok l → (refreshAll b s).1.logs = l) := by
  refine ⟨?_, ?_, ?_, ?_⟩ <;> intro x hx <;> simp [refreshAll, hx]

/-- Witness for the amended C2: failing logs with succeeding analytics —
analytics is updated, logs are cleared. -/
theorem c2_refreshAll_independent_witness :
    (refreshAll logsFailBackend s0logs).1.analytics = some sampleAnalytics ∧
    (refreshAll logsFailBackend s0logs).1.logs = [] :=
  ⟨(c2_refreshAll_independent logsFailBackend s0logs).2.2.1 sampleAnalytics rfl,
   (c2_refreshAll_independent logsFailBackend s0logs).2.1 "503 Service Unavailable" rfl⟩

/-- C3 counterexample: on an all-successful backend, the seed operation
never polls the queue — its trace has no `/gmail/poll` request — so "all
four read-refresh operations after every mutating action" is false. -/
theorem c3_counterexample :
    (handleSeed okBackend s0).2 =
      [Request.postSeed, Request.getAnalytics, Request.getLogs,
       Request.getAgentStatus] ∧
    Request.getGmailPoll ∉ (handleSeed okBackend s0).2 := by
  refine ⟨rfl, ?_⟩
  decide

/-- C3 amended: after every successful ingest, process-next, and
run-loop the four read refreshes run in the fixed order analytics, logs,
queue, status; after a successful seed only analytics, logs, status run
(no queue poll); a failed primary call triggers no refresh (see C1). -/
theorem c3_refresh_order (b : Backend) (s : AppState) (n : Nat) (m : Bool)
    (u1 u2 : Unit) (r1 : RunOnceResult) (r2 : RunLoopResult)
    (h1 : b.seedVendors = .ok u1) (h2 : b.ingestMockEmail = .ok u2)
    (h3 : b.runOnceResp = .ok r1) (h4 : b.runLoopResp = .ok r2) :
    (handleSeed b s).2 =
      [Request.postSeed, Request.getAnalytics, Request.getLogs,
       Request.getAgentStatus] ∧
    (handleIngest b s).2 =
      [Request.postIngest s.form, Request.getAnalytics, Request.getLogs,
       Request.getGmailPoll, Request.getAgentStatus] ∧
    (runOnce b m s).2 =
      [Request.postRunOnce, Request.getAnalytics, Request.getLogs,
       Request.getGmailPoll, Request.getAgentStatus] ∧
    (runLoop b n s).2 =
      [Request.postRunLoop n, Request.getAnalytics, Request.getLogs,
       Request.getGmailPoll, Request.getAgentStatus] := by
  refine ⟨?_, ?_, ?_, ?_⟩ <;>
    simp [handleSeed, handleIngest, runOnce, runLoop, h1, h2, h3, h4,
      refreshAll_requests, pollGmail_requests, loadAgentStatus_requests]

/-- Witness for the amended C3 on the all-successful backend. -/
theorem c3_refresh_order_witness :
    (handleSeed okBackend s0).2 =
      [Request.postSeed, Request.getAnalytics, Request.getLogs,
       Request.getAgentStatus] ∧
    (handleIngest okBackend s0).2 =
      [Request.postIngest s0.form, Request.getAnalytics, Request.getLogs,
       Request.getGmailPoll, Request.getAgentStatus] ∧
    (runOnce okBackend true s0).2 =
      [Request.postRunOnce, Request.getAnalytics, Request.getLogs,
       Request.getGmailPoll, Request.getAgentStatus] ∧
    (runLoop okBackend 10 s0).2 =
      [Request.postRunLoop 10, Request.getAnalytics, Request.getLogs,
       Request.getGmailPoll, Request.getAgentStatus] :=
  c3_refresh_order okBackend s0 10 true () () { processed := true }
    { processed := 3 } rfl rfl rfl rfl

/-! ## Timer lemmas -/

theorem timerInv_setAutoRun (b : Bool) (t : TimerState) (h : TimerInv t) :
    TimerInv (setAutoRun b t) := by
  obtain ⟨ar, ref, armed, nid⟩ := t
  cases ref with
  | none =>
    simp [TimerInv] at h
    cases b <;>
      simp [setAutoRun, autoRunEffect, clearCurrent, TimerInv, h.1, h.2]
  | some hh =>
    simp [TimerInv] at h
    cases b <;>
      simp [setAutoRun, autoRunEffect, clearCurrent, TimerInv, h.1, h.2]

theorem timerInv_reachable (t : TimerState) (h : TimerReachable t) :
    TimerInv t := by
  induction h with
  | init => decide
  | step b _ ih => exact timerInv_setAutoRun b _ ih

theorem setAutoRun_true_intervalRef (t : TimerState) :
    ∃ h, (setAutoRun true t).intervalRef = some h := by
  unfold setAutoRun autoRunEffect clearCurrent
  cases t.intervalRef <;> simp

/-- C4: in every reachable orchestration state the timer handle is
non-none exactly when auto-run is enabled, at most one interval is
armed, and re-entering the auto cycle still leaves exactly one armed
interval (the old one is cleared first). -/
theorem c4_timer_invariant (t : TimerState) (h : TimerReachable t) :
    (t.intervalRef.isSome = t.autoRun) ∧
    t.armed.length ≤ 1 ∧
    (setAutoRun true t).armed.length = 1 := by
  have hinv := timerInv_reachable t h
  have hinv2 := timerInv_setAutoRun true t hinv
  refine ⟨?_, ?_, ?_⟩
  · unfold TimerInv at hinv
    cases href : t.intervalRef <;> rw [href] at hinv <;> simp [hinv.1]
  · unfold TimerInv at hinv
    cases href : t.intervalRef <;> rw [href] at hinv <;> simp [hinv.2]
  · obtain ⟨hh, href⟩ := setAutoRun_true_intervalRef t
    unfold TimerInv at hinv2
    rw [href] at hinv2
    simp [hinv2.2]

/-- Witness for C4 after starting the auto cycle twice in a row. -/
theorem c4_timer_invariant_witness :
    ((setAutoRun true initTimer).intervalRef.isSome =
        (setAutoRun true initTimer).autoRun) ∧
    (setAutoRun true initTimer).armed.length ≤ 1 ∧
    (setAutoRun true (setAutoRun true initTimer)).armed.length = 1 :=
  c4_timer_invariant (setAutoRun true initTimer)
    (TimerReachable.step true TimerReachable.init)

theorem setAutoRun_false_armed (t : TimerState) (h : TimerInv t) :
    (setAutoRun false t).armed = [] := by
  obtain ⟨ar, ref, armed, nid⟩ := t
  cases ref with
  | none =>
    simp [TimerInv] at h
    simp [setAutoRun, autoRunEffect, clearCurrent, h.2]
  | some hh =>
    simp [TimerInv] at h
    simp [setAutoRun, autoRunEffect, clearCurrent, h.2]

theorem setAutoRun_false_armed_of_empty (t : TimerState) (h : t.armed = []) :
    (setAutoRun false t).armed = [] := by
  unfold setAutoRun autoRunEffect clearCurrent
  cases t.intervalRef <;> simp [h]

theorem stepAuto_preserves_stopped {s s1 : AutoState} {e : Ev}
    (harm : s.timer.armed = []) (hstep : stepAuto e s = some s1)
    (hne : e ≠ Ev.setAuto true) :
    s1.timer.armed = [] := by
  cases e with
  | setAuto b =>
    cases b with
    | false =>
      simp [stepAuto] at hstep
      rw [← hstep]
      exact setAutoRun_false_armed_of_empty s.timer harm
    | true => exact absurd rfl hne
  | tickFire => simp [stepAuto, harm] at hstep
  | tickStep =>
    simp [stepAuto] at hstep
    rcases hfl : s.inFlight with _ | n
    · rw [hfl] at hstep; simp at hstep
    · cases n with
      | zero => rw [hfl] at hstep; simp at hstep
      | succ m =>
        rw [hfl] at hstep
        simp at hstep
        rw [← hstep]
        exact harm

theorem noTickFire (es : List Ev) :
    ∀ s s1 : AutoState, AutoTrace s es s1 → s.timer.armed = [] →
      Ev.setAuto true ∉ es → Ev.tickFire ∉ es := by
  induction es with
  | nil => intro s s1 _ _ _; simp
  | cons e es ih =>
    intro s s1 htr harm hns
    cases htr with
    | cons hstep htl =>
      intro hmem
      have hne : e ≠ Ev.setAuto true := by
        intro hc; exact hns (hc ▸ List.mem_cons_self e es)
      rcases List.mem_cons.mp hmem with hhead | htail
      · rw [← hhead] at hstep
        simp [stepAuto, harm] at hstep
      · exact ih _ _ htl (stepAuto_preserves_stopped harm hstep hne)
          (fun hc => hns (List.mem_cons_of_mem e hc)) htail

theorem tickCompletes (n : Nat) :
    ∀ s : AutoState, s.inFlight = some n → 0 < n →
      ∃ s1, AutoTrace s (List.replicate n Ev.tickStep) s1 ∧
        s1.inFlight = none := by
  induction n with
  | zero => intro s _ hpos; exact absurd hpos (by simp)
  | succ n ih =>
    intro s hfl _
    cases n with
    | zero =>
      refine ⟨{ s with inFlight := none }, ?_, rfl⟩
      have hstep : stepAuto Ev.tickStep s = some { s with inFlight := none } := by
        simp [stepAuto, hfl]
      exact AutoTrace.cons hstep (AutoTrace.nil _)
    | succ m =>
      have hstep : stepAuto Ev.tickStep s =
          some { s with inFlight := some (m + 1) } := by
        simp [stepAuto, hfl]
      obtain ⟨s1, htr, hend⟩ :=
        ih { s with inFlight := some (m + 1) } rfl (Nat.succ_pos m)
      exact ⟨s1, AutoTrace.cons hstep htr, hend⟩

/-- C9: once the auto cycle is stopped (from any state satisfying the
timer invariant), no trace that does not re-enable auto-run ever
contains a timer tick, while a tick already in flight can still run all
its remaining phases to completion. -/
theorem c9_stop_cancels (t : TimerState) (fl : Option Nat) (es : List Ev)
    (s1 : AutoState) (hinv : TimerInv t)
    (htr : AutoTrace { timer := setAutoRun false t, inFlight := fl } es s1)
    (hns : Ev.setAuto true ∉ es) :
    Ev.tickFire ∉ es ∧
    (∀ n, fl = some n → 0 < n →
      ∃ s2, AutoTrace { timer := setAutoRun false t, inFlight := fl }
              (List.replicate n Ev.tickStep) s2 ∧ s2.inFlight = none) := by
  constructor
  · exact noTickFire es _ s1 htr (setAutoRun_false_armed t hinv) hns
  · intro n hn hpos
    exact tickCompletes n { timer := setAutoRun false t, inFlight := fl } hn hpos

/-- Witness for C9: stop right after starting, with a 4-phase tick in
flight and one further phase observed. -/
theorem c9_stop_cancels_witness :
    Ev.tickFire ∉ ([Ev.tickStep] : List Ev) ∧
    (∀ n, (some 4 : Option Nat) = some n → 0 < n →
      ∃ s2, AutoTrace
              { timer := setAutoRun false (setAutoRun true initTimer),
                inFlight := some 4 }
              (List.replicate n Ev.tickStep) s2 ∧ s2.inFlight = none) :=
  c9_stop_cancels (setAutoRun true initTimer) (some 4) [Ev.tickStep]
    { timer := setAutoRun false (setAutoRun true initTimer), inFlight := some 3 }
    (by decide)
    (AutoTrace.cons (by decide) (AutoTrace.nil _))
    (by decide)
